import Mathlib

/-!
Verification of the edge-agent connection-lifecycle manager.

This development shallowly embeds the Go sources of the repository:
  - internal/client/client.go   (dispatcher facade, command processing, supervisor loop)
  - internal/tcp/client.go      (stream transport client)
  - internal/websocket/client.go (frame transport client)
and proves or refutes the specified properties about them.

Machine integers: Go `time.Duration` (int64 nanoseconds) is modelled as ℤ and
`float64` configuration values as ℚ; the quantities that occur in the claims
stay far below 2^63, so wrap-around is not modelled.
-/

namespace EdgeAgent

/-- JSON-like structured value, the model of Go `interface{}` payloads decoded
from JSON (`map[string]interface{}`, strings, numbers, booleans, arrays,
null).  JSON numbers are modelled as integers, which covers every value the
claims quantify over. -/
inductive JVal where
  | null : JVal
  | bool (b : Bool) : JVal
  | num (n : ℤ) : JVal
  | str (s : String) : JVal
  | arr (xs : List JVal) : JVal
  | obj (fields : List (String × JVal)) : JVal

/-- First-match lookup in a decoded JSON object, the model of Go map indexing
`message["key"]`. -/
def jlookup : List (String × JVal) → String → Option JVal
  | [], _ => none
  | (k, v) :: rest, key => if k = key then some v else jlookup rest key

/-- internal/client/client.go `Command`: {Type, Payload, ID}. -/
structure Command where
  type : String
  payload : JVal
  id : String

/-- internal/client/client.go `CommandResponse`: {ID, Success, Data, Error}.
`Data` is Go `interface{}` (nil when absent), modelled as `Option JVal`. -/
structure CommandResponse where
  id : String
  success : Bool
  data : Option JVal
  error : String

/-- internal/proxy `APIResponse`: {Success, Data, Error}, the result type of
the HTTP executors. -/
structure APIResponse where
  success : Bool
  data : Option JVal
  error : String

/-- internal/local `LocalResult`: {ExitCode, Stdout, Stderr, Duration}. -/
structure LocalResult where
  exitCode : ℤ
  stdout : String
  stderr : String
  duration : String

/-- The JSON shape a `LocalResult` takes when placed in the response Data
field (struct fields with their json tags). -/
def localResultJson (r : LocalResult) : JVal :=
  .obj [("exit_code", .num r.exitCode), ("stdout", .str r.stdout),
        ("stderr", .str r.stderr), ("duration", .str r.duration)]

/-- The external executors (proxy.APIClient.ExecuteAPICall,
proxy.APIClient.ExecuteHTTPRequest, local.LocalClient.ExecuteCommand) are
out-of-scope collaborators; they are modelled as oracles receiving the
command payload (the handlers forward the extracted url/method/headers/body
or command/env/work_dir/timeout fields verbatim, so passing the whole
payload loses nothing).  A Go `(result, err)` pair is `Except String result`. -/
structure Execs where
  api : JVal → Except String APIResponse
  http : JVal → Except String APIResponse
  ssh : JVal → Except String LocalResult

/-- Configuration consumed by command processing: the per-command-type enable
flags (config.EnabledCommands) and the quick-command table
(config.QuickCommands, a `map[string]interface{}`). -/
structure Config where
  apiCall : Bool
  httpRequest : Bool
  sshCommand : Bool
  quickCommands : List (String × JVal)

/-- internal/client/client.go `handleAPICall` (lines 341-394): requires an
object payload, invokes the api executor, converts its result; an executor
error becomes a success:false response.  The second component records which
executors were invoked. -/
def handleAPICall (execs : Execs) (command : Command) : CommandResponse × List String :=
  match command.payload with
  | .obj _ =>
    match execs.api command.payload with
    | .error e =>
      (⟨command.id, false, none, "API call failed 1: " ++ e⟩, ["api_call"])
    | .ok r =>
      (⟨command.id, r.success, r.data, r.error⟩, ["api_call"])
  | _ => (⟨command.id, false, none, "Invalid payload format for api_call"⟩, [])

/-- internal/client/client.go `handleHTTPRequest` (lines 396-449), same shape
as `handleAPICall` with the http executor. -/
def handleHTTPRequest (execs : Execs) (command : Command) : CommandResponse × List String :=
  match command.payload with
  | .obj _ =>
    match execs.http command.payload with
    | .error e =>
      (⟨command.id, false, none, "HTTP request failed: " ++ e⟩, ["http_request"])
    | .ok r =>
      (⟨command.id, r.success, r.data, r.error⟩, ["http_request"])
  | _ => (⟨command.id, false, none, "Invalid payload format for http_request"⟩, [])

/-- internal/client/client.go `handleSSHCommand` (lines 451-524): requires an
object payload and a non-empty string `command` field (the Go type assertion
`payload["command"].(string)` yields "" when absent or non-string), then
invokes the local executor; success is exit code 0 and the result struct
becomes the Data field. -/
def handleSSHCommand (execs : Execs) (command : Command) : CommandResponse × List String :=
  match command.payload with
  | .obj fields =>
    let commandStr := match jlookup fields "command" with
      | some (.str s) => s
      | _ => ""
    if commandStr = "" then
      (⟨command.id, false, none, "command is required for ssh_command"⟩, [])
    else
      match execs.ssh command.payload with
      | .error e =>
        (⟨command.id, false, none, "Command execution failed: " ++ e⟩, ["ssh_command"])
      | .ok r =>
        (⟨command.id, decide (r.exitCode = 0), some (localResultJson r), ""⟩, ["ssh_command"])
  | _ => (⟨command.id, false, none, "Invalid payload format for ssh_command"⟩, [])

/-- internal/client/client.go `handleCustom` (lines 831-842): always succeeds,
echoing the payload. -/
def handleCustom (command : Command) : CommandResponse × List String :=
  (⟨command.id, true,
    some (.obj [("message", .str "Custom command executed"),
                ("received_payload", command.payload)]), ""⟩, [])

/-- internal/client/client.go `handleQuickCommand` (lines 526-625): resolves a
named quick command from configuration and dispatches directly to
`handleAPICall` / `handleHTTPRequest` / `handleSSHCommand` on the resolved
type, without consulting the per-command-type enable flags. -/
def handleQuickCommand (cfg : Config) (execs : Execs) (command : Command) :
    CommandResponse × List String :=
  match command.payload with
  | .obj fields =>
    match jlookup fields "command" with
    | none =>
      (⟨command.id, false, none, "command name is required for quick_command"⟩, [])
    | some nameVal =>
      match nameVal with
      | .str commandName =>
        match jlookup cfg.quickCommands commandName with
        | none =>
          (⟨command.id, false, none,
            "Quick command \x27" ++ commandName ++ "\x27 not found"⟩, [])
        | some quickCmd =>
          match quickCmd with
          | .obj quickFields =>
            match jlookup quickFields "type" with
            | none =>
              (⟨command.id, false, none,
                "Quick command \x27" ++ commandName ++ "\x27 missing type"⟩, [])
            | some typeVal =>
              match typeVal with
              | .str cmdType =>
                let cmdPayload := (jlookup quickFields "payload").getD (.obj [])
                let newCommand : Command := ⟨cmdType, cmdPayload, command.id⟩
                if cmdType = "api_call" then handleAPICall execs newCommand
                else if cmdType = "http_request" then handleHTTPRequest execs newCommand
                else if cmdType = "ssh_command" then handleSSHCommand execs newCommand
                else
                  (⟨command.id, false, none,
                    "Unsupported quick command type: " ++ cmdType⟩, [])
              | _ =>
                (⟨command.id, false, none,
                  "Quick command \x27" ++ commandName ++ "\x27 type must be a string"⟩, [])
          | _ =>
            (⟨command.id, false, none,
              "Invalid quick command format for \x27" ++ commandName ++ "\x27"⟩, [])
      | _ =>
        (⟨command.id, false, none, "command name must be a string"⟩, [])
  | _ => (⟨command.id, false, none, "Invalid payload format for quick_command"⟩, [])

/-- internal/client/client.go `processCommand` (lines 296-339): the Go switch
on the command type, with the per-command-type enable gate checked before the
three direct executor handlers; quick_command and custom have no gate. -/
def processCommand (cfg : Config) (execs : Execs) (command : Command) :
    CommandResponse × List String :=
  if command.type = "api_call" then
    if cfg.apiCall = false then
      (⟨command.id, false, none, "api_call commands are disabled"⟩, [])
    else handleAPICall execs command
  else if command.type = "http_request" then
    if cfg.httpRequest = false then
      (⟨command.id, false, none, "http_request commands are disabled"⟩, [])
    else handleHTTPRequest execs command
  else if command.type = "ssh_command" then
    if cfg.sshCommand = false then
      (⟨command.id, false, none, "ssh_command commands are disabled"⟩, [])
    else handleSSHCommand execs command
  else if command.type = "quick_command" then
    handleQuickCommand cfg execs command
  else if command.type = "custom" then
    handleCustom command
  else
    (⟨command.id, false, none,
      "Unknown command type: " ++ command.type ++
      ". Supported types: api_call, http_request, ssh_command, quick_command, open_cell, get_cell_status, add_key, delete_key, sync_keys, reboot, status, update, custom"⟩, [])

/-! ## Inbound message routing (the CommandRouter of each transport) -/

/-- internal/websocket/client.go `WSMessage`: {Type, Payload, ID}. -/
structure WSMessage where
  type : String
  payload : JVal
  id : String

/-- internal/websocket/client.go `handleMessage` (lines 205-257), applied to
an already-decoded message (a JSON decode failure returns before this logic
and invokes nothing).  `now` is the wall clock read by `time.Now().Unix()`,
`connected` the flag read by `IsConnected`, `handler` the injected command
handler (`none` when unset).  Returns the reply envelope enqueued for
sending (if any) and whether the injected handler was invoked.  A handler
response with empty Type is suppressed. -/
def wsHandleMessage (now : ℤ) (connected : Bool)
    (handler : Option (WSMessage → WSMessage)) (message : WSMessage) :
    Option WSMessage × Bool :=
  if message.type = "identification_success" then
    (none, false)
  else if message.type = "status_request" then
    (some ⟨"status_response",
      .obj [("connected", .bool connected), ("client_id", .str "websocket-client"),
            ("timestamp", .num now)], message.id⟩, false)
  else if message.type = "ping" then
    (some ⟨"pong", .obj [("timestamp", .num now)], message.id⟩, false)
  else
    match handler with
    | some h =>
      let response := h message
      (if response.type = "" then none else some response, true)
    | none => (none, false)

/-- internal/tcp/client.go `handleMessage` (lines 154-200), applied to an
already-decoded `map[string]interface{}` (a decode failure returns before
this logic).  The Go type assertion `message["type"].(string)` guards the
system-type switch: a missing or non-string type falls through to the
handler.  A `nil` handler result sends nothing. -/
def tcpHandleMessage (now : ℤ) (connected : Bool)
    (handler : Option (List (String × JVal) → Option (List (String × JVal))))
    (message : List (String × JVal)) :
    Option (List (String × JVal)) × Bool :=
  let callHandler : Option (List (String × JVal)) × Bool :=
    match handler with
    | some h => (h message, true)
    | none => (none, false)
  match jlookup message "type" with
  | some (.str msgType) =>
    if msgType = "identification_success" then
      (none, false)
    else if msgType = "status_request" then
      (some [("type", .str "status_response"), ("connected", .bool connected),
             ("client_id", .str "tcp-client"), ("timestamp", .num now)], false)
    else if msgType = "ping" then
      (some [("type", .str "pong"), ("timestamp", .num now)], false)
    else callHandler
  | _ => callHandler

/-! ## Outbound queue and per-connection tasks (shared transport model)

Both transport clients have the same outbound discipline: a send channel of
capacity 256 created once in the constructor (tcp/client.go line 23,
websocket/client.go line 32) and never recreated on reconnect; `SendCommand`
fails when not connected and otherwise enqueues, giving up with a timeout
error after 5 seconds when the channel stays full (tcp lines 92-110, ws
lines 111-135); `Connect` marks the client connected, enqueues the
identification envelope (its error merely logged), and spawns the
reader/writer tasks (tcp lines 27-66, ws lines 37-80); `writePump` dequeues
in FIFO order and exits on a write error, losing the message being written
(tcp lines 137-152, ws lines 163-183); a read error runs the deferred
`Disconnect` (tcp line 113, ws line 138).  Messages are tracked by role. -/

/-- Outbound message roles: the identification envelope sent by `Connect`,
the supervisor heartbeat, and handler-originated responses. -/
inductive OutMsg where
  | identify : OutMsg
  | heartbeat : OutMsg
  | response (id : String) : OutMsg
deriving DecidableEq

/-- Transport client state: the connected flag, liveness of the writer task,
the persistent outbound channel contents, and the messages written to the
wire since the most recent transition into Connected. -/
structure TState where
  connected : Bool
  writerAlive : Bool
  queue : List OutMsg
  sentSinceConnect : List OutMsg
deriving DecidableEq

/-- Outbound channel capacity, from `make(chan []byte, 256)`. -/
def queueCapacity : ℕ := 256

/-- Enqueue timeout in seconds, from `time.After(5 * time.Second)` in
`SendCommand`. -/
def sendTimeoutSeconds : ℕ := 5

/-- Result of `SendCommand`: enqueued, rejected because not connected, or the
5-second enqueue timeout on a saturated channel. -/
inductive SendOutcome where
  | ok : SendOutcome
  | notConnected : SendOutcome
  | enqueueTimeout : SendOutcome
deriving DecidableEq

/-- `SendCommand` of either transport client: not-connected check, then
enqueue when the channel has room, else the 5s timeout failure.  The state
is returned unchanged on failure — the error is logged by callers, never
fatal. -/
def sendCommand (s : TState) (m : OutMsg) : TState × SendOutcome :=
  if s.connected then
    if s.queue.length < queueCapacity then
      ({ s with queue := s.queue ++ [m] }, .ok)
    else (s, .enqueueTimeout)
  else (s, .notConnected)

/-- Environment/task actions on a transport client: the supervisor
`Connect` call (only made while disconnected), a writer dequeue that is
written successfully, a writer dequeue whose write fails (the writer task
exits), a 30s heartbeat tick in the supervisor loop (client.go lines
241-258), an inbound command whose handler response is enqueued
(handleMessage), and a read error triggering the deferred `Disconnect`. -/
inductive TAct where
  | connect : TAct
  | writerOk : TAct
  | writerFail : TAct
  | heartbeatTick : TAct
  | inboundCmd (id : String) : TAct
  | readFail : TAct
deriving DecidableEq

/-- One step of the transport client model.  Actions whose task precondition
does not hold (writer already dead, queue empty, not connected) leave the
state unchanged. -/
def step (s : TState) (a : TAct) : TState :=
  match a with
  | .connect =>
    if s.connected then s
    else
      (sendCommand { connected := true, writerAlive := true,
                     queue := s.queue, sentSinceConnect := [] } .identify).1
  | .writerOk =>
    if s.writerAlive then
      match s.queue with
      | [] => s
      | m :: rest =>
        { s with queue := rest, sentSinceConnect := s.sentSinceConnect ++ [m] }
    else s
  | .writerFail =>
    if s.writerAlive then
      match s.queue with
      | [] => s
      | _ :: rest => { s with queue := rest, writerAlive := false }
    else s
  | .heartbeatTick => (sendCommand s .heartbeat).1
  | .inboundCmd i => (sendCommand s (.response i)).1
  | .readFail => if s.connected then { s with connected := false } else s

/-- Run a sequence of actions. -/
def runT (s : TState) (acts : List TAct) : TState :=
  acts.foldl step s

/-- A freshly constructed client (NewTCPClient / NewWSClient): disconnected,
no tasks, empty channel. -/
def freshClient : TState :=
  { connected := false, writerAlive := false, queue := [], sentSinceConnect := [] }

/-- An interleaving in which the writer dies on a failed heartbeat write, a
second heartbeat is enqueued while the connected flag is still set, the read
error then disconnects, and the supervisor reconnects: the residual
heartbeat precedes the identification envelope of the new connection in the
still-populated channel. -/
def staleQueueTrace : List TAct :=
  [.connect, .writerOk, .heartbeatTick, .writerFail, .heartbeatTick,
   .readFail, .connect, .writerOk]

/-- Invariant behind the identification-first property: while nothing has
been sent since connecting, a live writer faces the identification envelope
at the head of the queue; once something has been sent, the first sent
message was the identification envelope. -/
def IdentFirst (s : TState) : Prop :=
  (s.sentSinceConnect = [] → s.writerAlive = true → s.queue.head? = some .identify) ∧
  (s.sentSinceConnect ≠ [] → s.sentSinceConnect.head? = some .identify)

/-! ## Connection supervisor (internal/client/client.go startConnectionClient) -/

/-- The reconnect policy fields of the configuration
(config.WebSocket.Reconnect).  Delays are `time.Duration` (int64
nanoseconds) modelled as ℤ; the backoff multiplier is a `float64` modelled
as ℚ; `max_attempts` is a non-negative count. -/
structure Policy where
  enabled : Bool
  maxAttempts : ℕ
  initialDelay : ℤ
  maxDelay : ℤ
  multiplier : ℚ

/-- Go conversion `time.Duration(multiplier)` of the float64 backoff
multiplier: float-to-integer conversion truncates toward zero, which on a
rational in lowest terms is T-division of the numerator by the
denominator. -/
def truncMult (m : ℚ) : ℤ :=
  m.num.tdiv (m.den : ℤ)

/-- The backoff accumulation loop of client.go lines 205-208:
`delay := initial; for i := 1; i < attempts; i++ { delay *= m }`, here as
`n` successive multiplications. -/
def backoffIter (d m : ℤ) : ℕ → ℤ
  | 0 => d
  | n + 1 => backoffIter (d * m) m n

/-- client.go lines 169-173: a configured max_attempts of 0 is replaced by
the default 5. -/
def effMax (pol : Policy) : ℕ :=
  if pol.maxAttempts = 0 then 5 else pol.maxAttempts

/-- client.go lines 204-211: the delay slept before the next attempt when
the failure counter has value `attempts`: the initial delay multiplied
`attempts - 1` times by the truncated multiplier, then capped at max_delay. -/
def computeDelay (pol : Policy) (attempts : ℕ) : ℤ :=
  let d := backoffIter pol.initialDelay (truncMult pol.multiplier) (attempts - 1)
  if pol.maxDelay < d then pol.maxDelay else d

/-- Outcome of one connect attempt as decided by the environment: the dial
fails, or it succeeds and the resulting session later ends in an unexpected
disconnect (the only way the inner keep-alive loop of lines 222-259 is left
without cancellation). -/
inductive Outcome where
  | fail : Outcome
  | success : Outcome
deriving DecidableEq

/-- Observable events of the supervisor loop: a connect attempt with the
counter value it reads, the backoff sleep, the transition into Connected,
the loss of the session, the fixed initial-delay wait before reconnecting
after a lost session (line 266), and permanent termination. -/
inductive SupEv where
  | attempt (pre : ℕ) : SupEv
  | backoff (d : ℤ) : SupEv
  | connected : SupEv
  | disconnected : SupEv
  | reconnectWait (d : ℤ) : SupEv
  | gaveUp : SupEv
deriving DecidableEq

/-- client.go `startConnectionClient` main loop (lines 175-272), driven by a
finite list of attempt outcomes (exhausting the list means the loop is still
running; cancellation paths are not exercised).  Returns the emitted events
and the final value of `reconnectAttempts`.  On failure: reconnection
disabled terminates; otherwise the counter increments, reaching the
effective maximum terminates, else the computed backoff is slept.  On
success: the counter resets to 0 before the session; when the session is
lost, reconnection enabled waits one initial delay and loops, else the loop
terminates.  The counter is untouched by the disconnect itself. -/
def supRun (pol : Policy) : List Outcome → ℕ → List SupEv × ℕ
  | [], n => ([], n)
  | .fail :: rest, n =>
    if pol.enabled = false then ([.attempt n, .gaveUp], n)
    else if effMax pol ≤ n + 1 then ([.attempt n, .gaveUp], n + 1)
    else
      let r := supRun pol rest (n + 1)
      (.attempt n :: .backoff (computeDelay pol (n + 1)) :: r.1, r.2)
  | .success :: rest, n =>
    if pol.enabled = false then
      ([.attempt n, .connected, .disconnected, .gaveUp], 0)
    else
      let r := supRun pol rest 0
      (.attempt n :: .connected :: .disconnected ::
        .reconnectWait pol.initialDelay :: r.1, r.2)

/-- Number of connect attempts among the events. -/
def attemptCount (evs : List SupEv) : ℕ :=
  evs.countP (fun e => match e with | .attempt _ => true | _ => false)

/-- The backoff sleep durations among the events, in order. -/
def backoffDelays (evs : List SupEv) : List ℤ :=
  evs.filterMap (fun e => match e with | .backoff d => some d | _ => none)

/-- The delay formula exactly as the specification states it (claim C1):
`delay[n] = min(initial_delay × backoff_multiplier^n, max_delay)` with the
multiplier kept as a real (rational) number.  Stated for comparison with
`computeDelay`, which is translated from the source. -/
def claimDelay (pol : Policy) (n : ℕ) : ℚ :=
  min ((pol.initialDelay : ℚ) * pol.multiplier ^ n) (pol.maxDelay : ℚ)

/-- Policy used in the backoff counterexample: a fractional multiplier
(3/2 is exactly representable as a float64, so ℚ and float64 agree on it). -/
def polFrac : Policy :=
  { enabled := true, maxAttempts := 3, initialDelay := 2, maxDelay := 100,
    multiplier := ⟨3, 2, by norm_num, by norm_num⟩ }

/-- Policy used in the counter counterexample. -/
def polPlain : Policy :=
  { enabled := true, maxAttempts := 5, initialDelay := 1, maxDelay := 10,
    multiplier := 2 }

/-! ## Keepalive (websocket/client.go pingPump) and heartbeat intervals -/

/-- Per-connection tasks the `Connect` of a transport spawns. -/
inductive TaskKind where
  | reader : TaskKind
  | writer : TaskKind
  | keepalive : TaskKind
deriving DecidableEq

/-- tcp/client.go `Connect` spawns `readPump` and `writePump` (lines 59-63)
and nothing else: the stream transport has no keepalive task. -/
def tcpConnectTasks : List TaskKind := [.reader, .writer]

/-- websocket/client.go `Connect` spawns `readPump`, `writePump` and
`pingPump` (lines 70-77). -/
def wsConnectTasks : List TaskKind := [.reader, .writer, .keepalive]

/-- websocket/client.go line 186: `time.NewTicker(54 * time.Second)`. -/
def wsKeepaliveIntervalSeconds : ℕ := 54

/-- client.go line 241: `time.After(30 * time.Second)` between application
heartbeats in the supervisor loop. -/
def heartbeatIntervalSeconds : ℕ := 30

/-- State visible to the ping task: the connected flag and whether the ping
task itself is still running. -/
structure PingState where
  connected : Bool
  pingerAlive : Bool
deriving DecidableEq

/-- On a ticker tick, `pingPump` (ws lines 185-203) writes a probe only when
the task is alive and `IsConnected()` holds. -/
def pingTickSends (s : PingState) : Bool :=
  s.pingerAlive && s.connected

/-- When the probe write fails, `pingPump` logs and returns: only the ping
task ends; the connected flag (and so the session teardown, which is driven
by the error path of the reader) is untouched, and nothing terminates the
client. -/
def pingFailureStep (s : PingState) : PingState :=
  { s with pingerAlive := false }

/-- Configuration with api_call disabled but a quick command resolving to an
api_call, for the gating counterexample. -/
def cfgQuickBypass : Config :=
  { apiCall := false, httpRequest := true, sshCommand := true,
    quickCommands := [("deploy", .obj [("type", .str "api_call"), ("payload", .obj [])])] }

/-- Executor oracles that all succeed, for concrete runs. -/
def execsAllOk : Execs :=
  { api := fun _ => .ok ⟨true, none, ""⟩,
    http := fun _ => .ok ⟨true, none, ""⟩,
    ssh := fun _ => .ok ⟨0, "", "", ""⟩ }

/-- A quick_command invocation resolving to the configured api_call. -/
def cmdQuickDeploy : Command := ⟨"quick_command", .obj [("command", .str "deploy")], "q1"⟩

/-- Policy with max_attempts configured as 0. -/
def polZero : Policy :=
  { enabled := true, maxAttempts := 0, initialDelay := 1, maxDelay := 10, multiplier := 2 }

/-! ## Helper lemmas -/

lemma backoffIter_eq (m d : ℤ) : ∀ n : ℕ, backoffIter d m n = d * m ^ n := by
  intro n
  induction n generalizing d with
  | zero => simp [backoffIter]
  | succ n ih => rw [backoffIter, ih, pow_succ]; ring

lemma computeDelay_succ (pol : Policy) (n : ℕ) :
    computeDelay pol (n + 1) =
      min (pol.initialDelay * truncMult pol.multiplier ^ n) pol.maxDelay := by
  simp only [computeDelay, Nat.add_sub_cancel, backoffIter_eq]
  split_ifs with h
  · exact (min_eq_right h.le).symm
  · exact (min_eq_left (not_lt.mp h)).symm

lemma effMax_pos (pol : Policy) : 0 < effMax pol := by
  unfold effMax
  split <;> omega

/-- Shape of an all-failure run of the supervisor loop started at counter
value `n`: the number of attempts made and the list of backoff sleeps. -/
lemma supRun_all_fail (pol : Policy) (hen : pol.enabled = true) :
    ∀ (k n : ℕ), n < effMax pol →
      attemptCount (supRun pol (List.replicate k .fail) n).1 = min k (effMax pol - n) ∧
      backoffDelays (supRun pol (List.replicate k .fail) n).1 =
        (List.range (min k (effMax pol - n - 1))).map
          (fun j => min (pol.initialDelay * truncMult pol.multiplier ^ (n + j))
            pol.maxDelay) := by
  intro k
  induction k with
  | zero =>
    intro n hn
    simp [supRun, attemptCount, backoffDelays]
  | succ k ih =>
    intro n hn
    rw [List.replicate_succ]
    by_cases hstop : effMax pol ≤ n + 1
    · have h0 : min (k + 1) (effMax pol - n - 1) = 0 := by omega
      constructor
      · simp [supRun, hen, hstop, attemptCount]
        omega
      · simp [supRun, hen, hstop, backoffDelays, h0]
    · have hlt : n + 1 < effMax pol := by omega
      obtain ⟨ih1, ih2⟩ := ih (n + 1) hlt
      have hne : ¬ (pol.enabled = false) := by simp [hen]
      constructor
      · simp only [supRun, if_neg hne, if_neg hstop, attemptCount, List.countP_cons]
        simp only [attemptCount] at ih1
        simp
        omega
      · simp only [supRun, if_neg hne, if_neg hstop, backoffDelays, List.filterMap_cons]
        simp only [backoffDelays] at ih2
        simp only [ih2]
        have hs : min (k + 1) (effMax pol - n - 1) = min k (effMax pol - (n+1) - 1) + 1 := by
          omega
        rw [hs, List.range_succ_eq_map]
        simp only [List.map_cons, List.map_map]
        rw [computeDelay_succ]
        simp only [Nat.add_zero]
        congr 1
        apply List.map_congr_left
        intro j hj
        have hexp : n + 1 + j = n + (j + 1) := by omega
        simp only [Function.comp_apply]
        rw [hexp]

/-! ## Claims -/

/-- C1 (amended): for every reconnect policy with reconnection enabled, in a
run where every connect attempt fails, the delay slept before retry n is
`min(initial_delay * trunc(backoff_multiplier)^n, max_delay)` — the float64
multiplier is truncated to an integer by the `time.Duration` conversion
before it is applied — and no more than the effective maximum number of
attempts (max_attempts, read as 5 when configured 0) occur before the loop
gives up. -/
theorem backoff_delays_and_attempt_bound (pol : Policy) (k : ℕ)
    (hen : pol.enabled = true) :
    attemptCount (supRun pol (List.replicate k .fail) 0).1 = min k (effMax pol) ∧
    attemptCount (supRun pol (List.replicate k .fail) 0).1 ≤ effMax pol ∧
    backoffDelays (supRun pol (List.replicate k .fail) 0).1 =
      (List.range (min k (effMax pol - 1))).map
        (fun j => min (pol.initialDelay * truncMult pol.multiplier ^ j)
          pol.maxDelay) := by
  obtain ⟨h1, h2⟩ := supRun_all_fail pol hen k 0 (effMax_pos pol)
  simp only [Nat.sub_zero, Nat.zero_add] at h1 h2
  exact ⟨h1, h1 ▸ min_le_right _ _, h2⟩

/-- Witness for the amended C1 theorem at a concrete policy and run length. -/
theorem backoff_delays_and_attempt_bound_witness :
    attemptCount (supRun polPlain (List.replicate 7 .fail) 0).1 =
      min 7 (effMax polPlain) ∧
    attemptCount (supRun polPlain (List.replicate 7 .fail) 0).1 ≤ effMax polPlain ∧
    backoffDelays (supRun polPlain (List.replicate 7 .fail) 0).1 =
      (List.range (min 7 (effMax polPlain - 1))).map
        (fun j => min (polPlain.initialDelay * truncMult polPlain.multiplier ^ j)
          polPlain.maxDelay) :=
  backoff_delays_and_attempt_bound polPlain 7 rfl

/-- C1 is false as stated: with the policy `polFrac` (initial delay 2,
multiplier 3/2, max delay 100), the delay slept before retry 1 is 2 — the
multiplier was truncated to 1 — whereas the claimed formula
`min(initial_delay * multiplier^1, max_delay)` gives 3. -/
theorem backoff_truncation_counterexample :
    backoffDelays (supRun polFrac (List.replicate 3 .fail) 0).1 = [2, 2] ∧
    claimDelay polFrac 1 = 3 ∧ ((2 : ℤ) : ℚ) ≠ claimDelay polFrac 1 := by
  refine ⟨by decide, ?_, ?_⟩ <;>
    · simp [claimDelay, polFrac, Rat.mk'_eq_divInt, Rat.divInt_eq_div]
      norm_num

/-- C10: a configured max_attempts of 0 is replaced by the default limit 5,
and an all-failure run indeed stops after 5 attempts. -/
theorem max_attempts_zero_defaults_to_five (pol : Policy) (k : ℕ)
    (hen : pol.enabled = true) (hz : pol.maxAttempts = 0) :
    effMax pol = 5 ∧
    attemptCount (supRun pol (List.replicate k .fail) 0).1 = min k 5 := by
  have h5 : effMax pol = 5 := by simp [effMax, hz]
  obtain ⟨h1, _⟩ := supRun_all_fail pol hen k 0 (effMax_pos pol)
  rw [Nat.sub_zero, h5] at h1
  exact ⟨h5, h1⟩

/-- Witness for C10 at a concrete policy and a run longer than 5 failures. -/
theorem max_attempts_zero_defaults_to_five_witness :
    effMax polZero = 5 ∧
    attemptCount (supRun polZero (List.replicate 9 .fail) 0).1 = min 9 5 :=
  max_attempts_zero_defaults_to_five polZero 9 rfl rfl

/-- C6 (amended): in the supervisor loop the attempt counter resets to 0
exactly at a successful transition into Connected, increments on every
connect failure, and is left unchanged by an unexpected disconnect of the
session (the loop merely sleeps one initial delay and re-enters the connect
phase). -/
theorem counter_reset_and_increment (pol : Policy) (n : ℕ) (rest : List Outcome)
    (hen : pol.enabled = true) :
    (supRun pol (.success :: rest) n).2 = (supRun pol rest 0).2 ∧
    (effMax pol ≤ n + 1 → (supRun pol (.fail :: rest) n).2 = n + 1) ∧
    (n + 1 < effMax pol →
      (supRun pol (.fail :: rest) n).2 = (supRun pol rest (n + 1)).2) := by
  have hne : ¬ (pol.enabled = false) := by simp [hen]
  refine ⟨by simp [supRun, hne], fun h => by simp [supRun, hne, h],
    fun h => by simp [supRun, hne, Nat.not_le.mpr h]⟩

/-- Witness for the amended C6 theorem: reset on success, increment on
failure, at concrete inputs. -/
theorem counter_reset_and_increment_witness :
    (supRun polPlain [Outcome.success] 1).2 = (supRun polPlain [] 0).2 ∧
    (supRun polPlain [Outcome.fail] 0).2 = (supRun polPlain [] 1).2 :=
  ⟨(counter_reset_and_increment polPlain 1 [] rfl).1,
   (counter_reset_and_increment polPlain 0 [] rfl).2.2 (by decide)⟩

/-- C6 is false as stated: starting a success from counter value 3, the
session is later lost (a `disconnected` event occurs), yet the counter ends
at 0 — the value the Connected transition reset it to — rather than being
incremented by the unexpected disconnect. -/
theorem counter_unchanged_on_disconnect_counterexample :
    (supRun polPlain [Outcome.success] 3).2 = 0 ∧
    SupEv.disconnected ∈ (supRun polPlain [Outcome.success] 3).1 := by
  decide

lemma handleAPICall_id (execs : Execs) (command : Command) :
    (handleAPICall execs command).1.id = command.id := by
  unfold handleAPICall
  cases hp : command.payload <;> simp
  cases execs.api (JVal.obj _) <;> simp

lemma handleHTTPRequest_id (execs : Execs) (command : Command) :
    (handleHTTPRequest execs command).1.id = command.id := by
  unfold handleHTTPRequest
  cases hp : command.payload <;> simp
  cases execs.http (JVal.obj _) <;> simp

lemma handleSSHCommand_id (execs : Execs) (command : Command) :
    (handleSSHCommand execs command).1.id = command.id := by
  unfold handleSSHCommand
  cases hp : command.payload <;> simp
  split_ifs <;> try simp
  cases execs.ssh (JVal.obj _) <;> simp

lemma handleQuickCommand_id (cfg : Config) (execs : Execs) (command : Command) :
    (handleQuickCommand cfg execs command).1.id = command.id := by
  unfold handleQuickCommand
  cases command.payload <;> simp
  case obj fields =>
  cases jlookup fields "command" <;> simp
  case some v =>
  cases v <;> simp
  case str name =>
  cases jlookup cfg.quickCommands name <;> simp
  case some qc =>
  cases qc <;> simp
  case obj qf =>
  cases jlookup qf "type" <;> simp
  case some tv =>
  cases tv <;> simp
  case str t =>
  split_ifs <;>
    simp [handleAPICall_id, handleHTTPRequest_id, handleSSHCommand_id]

/-- C9: on every branch of command processing — enabled execution, disabled
short-circuit, malformed payload, unknown type, and quick_command
delegation — the returned response carries the ID of the input command. -/
theorem response_id_matches_command_id (cfg : Config) (execs : Execs)
    (command : Command) :
    (processCommand cfg execs command).1.id = command.id := by
  unfold processCommand
  split_ifs <;>
    simp [handleAPICall_id, handleHTTPRequest_id, handleSSHCommand_id,
      handleQuickCommand_id, handleCustom]

/-- C4 (amended): on the direct dispatch path of `processCommand` a disabled
command type short-circuits, for every payload and executor behaviour, to
`success:false` with exactly the fixed string and without invoking any
executor; commands reached through quick_command resolution are dispatched
by `handleQuickCommand` without this gate. -/
theorem disabled_gate_on_direct_path (cfg : Config) (execs : Execs)
    (command : Command) :
    (command.type = "api_call" → cfg.apiCall = false →
      processCommand cfg execs command =
        (⟨command.id, false, none, "api_call commands are disabled"⟩, [])) ∧
    (command.type = "http_request" → cfg.httpRequest = false →
      processCommand cfg execs command =
        (⟨command.id, false, none, "http_request commands are disabled"⟩, [])) ∧
    (command.type = "ssh_command" → cfg.sshCommand = false →
      processCommand cfg execs command =
        (⟨command.id, false, none, "ssh_command commands are disabled"⟩, [])) := by
  refine ⟨fun ht hd => ?_, fun ht hd => ?_, fun ht hd => ?_⟩ <;>
    simp [processCommand, ht, hd]

/-- Witness for the amended C4 theorem: a disabled api_call, sent directly,
short-circuits with the fixed message. -/
theorem disabled_gate_on_direct_path_witness :
    processCommand cfgQuickBypass execsAllOk ⟨"api_call", .null, "d1"⟩ =
      (⟨"d1", false, none, "api_call commands are disabled"⟩, []) :=
  (disabled_gate_on_direct_path cfgQuickBypass execsAllOk
    ⟨"api_call", .null, "d1"⟩).1 rfl rfl

/-- C4 is false as stated: with api_call disabled, a quick_command resolving
to an api_call still invokes the api executor and returns its successful
response instead of the disabled-message short-circuit. -/
theorem quick_command_bypasses_gate_counterexample :
    cfgQuickBypass.apiCall = false ∧
    (processCommand cfgQuickBypass execsAllOk cmdQuickDeploy).2 = ["api_call"] ∧
    (processCommand cfgQuickBypass execsAllOk cmdQuickDeploy).1.success = true ∧
    (processCommand cfgQuickBypass execsAllOk cmdQuickDeploy).1.error ≠
      "api_call commands are disabled" :=
  ⟨rfl, rfl, rfl, by decide⟩

/-- C3: on both transports, an inbound envelope whose type is one of the
reserved system types ping, status_request or identification_success is
handled inline (identification_success silently, producing no reply) and
the injected command handler is never invoked. -/
theorem system_types_never_reach_handler :
    (∀ (now : ℤ) (connected : Bool) (handler : Option (WSMessage → WSMessage))
        (message : WSMessage),
      message.type = "ping" ∨ message.type = "status_request" ∨
        message.type = "identification_success" →
      (wsHandleMessage now connected handler message).2 = false ∧
      (message.type = "identification_success" →
        (wsHandleMessage now connected handler message).1 = none)) ∧
    (∀ (now : ℤ) (connected : Bool)
        (handler : Option (List (String × JVal) → Option (List (String × JVal))))
        (message : List (String × JVal)) (t : String),
      jlookup message "type" = some (.str t) →
      t = "ping" ∨ t = "status_request" ∨ t = "identification_success" →
      (tcpHandleMessage now connected handler message).2 = false ∧
      (t = "identification_success" →
        (tcpHandleMessage now connected handler message).1 = none)) := by
  constructor
  · rintro now c h m (ht | ht | ht) <;> simp [wsHandleMessage, ht]
  · rintro now c h m t hl (ht | ht | ht) <;> simp [tcpHandleMessage, hl, ht]

/-- Witness for C3 at concrete messages on both transports. -/
theorem system_types_never_reach_handler_witness :
    (wsHandleMessage 0 true none ⟨"ping", .null, "7"⟩).2 = false ∧
    (tcpHandleMessage 0 true none [("type", JVal.str "status_request")]).2 = false :=
  ⟨(system_types_never_reach_handler.1 0 true none ⟨"ping", .null, "7"⟩ (Or.inl rfl)).1,
   (system_types_never_reach_handler.2 0 true none [("type", JVal.str "status_request")]
      "status_request" rfl (Or.inr (Or.inl rfl))).1⟩

/-- C5 (amended): a connected client answering an inbound ping never invokes
the injected handler; on the WebSocket transport the pong carries a
timestamp payload and echoes the inbound correlation id, while on the TCP
transport the pong carries a top-level timestamp and no correlation id. -/
theorem ping_reply_behavior (now : ℤ) (payload : JVal) (msgId : String)
    (connected : Bool) (wh : Option (WSMessage → WSMessage))
    (message : List (String × JVal))
    (th : Option (List (String × JVal) → Option (List (String × JVal))))
    (connected2 : Bool)
    (hl : jlookup message "type" = some (.str "ping")) :
    wsHandleMessage now connected wh ⟨"ping", payload, msgId⟩ =
      (some ⟨"pong", .obj [("timestamp", .num now)], msgId⟩, false) ∧
    tcpHandleMessage now connected2 th message =
      (some [("type", .str "pong"), ("timestamp", .num now)], false) := by
  constructor
  · simp [wsHandleMessage]
  · simp [tcpHandleMessage, hl]

/-- Witness for the amended C5 theorem at concrete inputs. -/
theorem ping_reply_behavior_witness :
    wsHandleMessage 5 true none ⟨"ping", .null, "7"⟩ =
      (some ⟨"pong", .obj [("timestamp", .num 5)], "7"⟩, false) ∧
    tcpHandleMessage 5 true none [("type", JVal.str "ping"), ("id", JVal.str "7")] =
      (some [("type", .str "pong"), ("timestamp", .num 5)], false) :=
  ping_reply_behavior 5 .null "7" true none
    [("type", JVal.str "ping"), ("id", JVal.str "7")] none true rfl

/-- C5 is false as stated: the TCP client reply to ping with correlation
id "7" is an envelope with no "id" key at all, so the pong does not carry
the inbound correlation id. -/
theorem tcp_pong_missing_correlation_id_counterexample :
    tcpHandleMessage 0 true (some fun _ => none)
        [("type", JVal.str "ping"), ("id", JVal.str "7")] =
      (some [("type", JVal.str "pong"), ("timestamp", JVal.num 0)], false) ∧
    jlookup [("type", JVal.str "pong"), ("timestamp", JVal.num 0)] "id" = none :=
  ⟨rfl, rfl⟩

/-- C7: the outbound queue of each transport has capacity 256; an enqueue
onto a full queue fails after the 5-second timeout with the message dropped
and the state — in particular the connected flag — unchanged, and an
enqueue onto a queue with room (after the writer drained it) succeeds
immediately. -/
theorem outbound_queue_capacity_and_timeout :
    queueCapacity = 256 ∧ sendTimeoutSeconds = 5 ∧
    (∀ (s : TState) (m : OutMsg), s.connected = true →
      s.queue.length = queueCapacity → sendCommand s m = (s, .enqueueTimeout)) ∧
    (∀ (s : TState) (m : OutMsg), s.connected = true →
      s.queue.length < queueCapacity →
      sendCommand s m = ({ s with queue := s.queue ++ [m] }, .ok)) ∧
    (∀ (s : TState) (m : OutMsg), ((sendCommand s m).1).connected = s.connected) := by
  refine ⟨rfl, rfl, fun s m hc hfull => ?_, fun s m hc hlt => ?_, fun s m => ?_⟩
  · simp [sendCommand, hc, hfull]
  · simp [sendCommand, hc, hlt]
  · unfold sendCommand
    split_ifs <;> rfl

/-- Witness for C7: a full queue rejects, an empty queue accepts. -/
theorem outbound_queue_capacity_and_timeout_witness :
    sendCommand ⟨true, true, List.replicate 256 OutMsg.heartbeat, []⟩ OutMsg.heartbeat =
      (⟨true, true, List.replicate 256 OutMsg.heartbeat, []⟩, .enqueueTimeout) ∧
    sendCommand ⟨true, true, [], []⟩ OutMsg.heartbeat =
      (⟨true, true, [OutMsg.heartbeat], []⟩, .ok) :=
  by
  constructor
  · exact outbound_queue_capacity_and_timeout.2.2.1 _ _ rfl (by rw [List.length_replicate]; rfl)
  · have h := outbound_queue_capacity_and_timeout.2.2.2.1 (⟨true, true, [], []⟩ : TState) OutMsg.heartbeat rfl (by simp [queueCapacity])
    simpa using h

/-- C8 is false as stated: the TCP client Connect spawns no keepalive
task, so no transport-level probe is ever sent on the TCP transport; only
the WebSocket client runs one. -/
theorem tcp_has_no_keepalive_counterexample :
    TaskKind.keepalive ∉ tcpConnectTasks ∧ TaskKind.keepalive ∈ wsConnectTasks := by
  decide

/-- C8 (amended): on the WebSocket transport only, a keepalive probe task
runs on a 54-second interval, distinct from the 30-second application
heartbeat; a tick sends a probe only while connected; a probe failure ends
only the ping task, leaving the connected flag (session teardown is driven
by the error path of the reader) untouched and never failing the client. -/
theorem keepalive_interval_and_failure_handling :
    wsKeepaliveIntervalSeconds = 54 ∧ heartbeatIntervalSeconds = 30 ∧
    wsKeepaliveIntervalSeconds ≠ heartbeatIntervalSeconds ∧
    TaskKind.keepalive ∈ wsConnectTasks ∧
    (∀ s : PingState, s.connected = false → pingTickSends s = false) ∧
    (∀ s : PingState, (pingFailureStep s).connected = s.connected ∧
      (pingFailureStep s).pingerAlive = false) := by
  refine ⟨rfl, rfl, ?_, ?_, fun s hc => ?_, fun s => ?_⟩
  · decide
  · decide
  · simp [pingTickSends, hc]
  · exact ⟨rfl, rfl⟩

/-- Witness for the amended C8 theorem at concrete states. -/
theorem keepalive_interval_and_failure_handling_witness :
    pingTickSends ⟨false, true⟩ = false ∧
    (pingFailureStep ⟨true, true⟩).connected = true :=
  ⟨keepalive_interval_and_failure_handling.2.2.2.2.1 ⟨false, true⟩ rfl,
   (keepalive_interval_and_failure_handling.2.2.2.2.2 ⟨true, true⟩).1⟩

lemma identFirst_connect (s : TState) (hc : s.connected = false) (hq : s.queue = []) :
    IdentFirst (step s .connect) := by
  unfold step sendCommand IdentFirst
  simp [hc, hq, queueCapacity]

lemma sent_head_append (l : List OutMsg) (m : OutMsg) (h : l ≠ []) :
    (l ++ [m]).head? = l.head? := by
  obtain ⟨x, xs, rfl⟩ := List.exists_cons_of_ne_nil h
  rfl

lemma identFirst_step (s : TState) (a : TAct) (ha : a ≠ .connect)
    (hI : IdentFirst s) : IdentFirst (step s a) := by
  obtain ⟨h1, h2⟩ := hI
  cases a with
  | connect => exact absurd rfl ha
  | writerOk =>
    by_cases hw : s.writerAlive
    · cases hq : s.queue with
      | nil =>
        have hstep : step s .writerOk = s := by simp [step, hw, hq]
        rw [hstep]; exact ⟨h1, h2⟩
      | cons m rest =>
        have hstep : step s .writerOk =
            { s with queue := rest, sentSinceConnect := s.sentSinceConnect ++ [m] } := by
          simp [step, hw, hq]
        rw [hstep]
        constructor
        · intro hsent
          simp at hsent
        · intro _
          show (s.sentSinceConnect ++ [m]).head? = some OutMsg.identify
          by_cases hs : s.sentSinceConnect = []
          · have hm : m = .identify := by
              have := h1 hs hw
              rw [hq] at this
              simpa using this
            simp [hs, hm]
          · rw [sent_head_append _ _ hs]
            exact h2 hs
    · have hstep : step s .writerOk = s := by simp [step, hw]
      rw [hstep]; exact ⟨h1, h2⟩
  | writerFail =>
    by_cases hw : s.writerAlive
    · cases hq : s.queue with
      | nil =>
        have hstep : step s .writerFail = s := by simp [step, hw, hq]
        rw [hstep]; exact ⟨h1, h2⟩
      | cons m rest =>
        have hstep : step s .writerFail =
            { s with queue := rest, writerAlive := false } := by
          simp [step, hw, hq]
        rw [hstep]
        constructor
        · intro _ hwa
          simp at hwa
        · intro hs
          exact h2 hs
    · have hstep : step s .writerFail = s := by simp [step, hw]
      rw [hstep]; exact ⟨h1, h2⟩
  | heartbeatTick =>
    by_cases hcn : s.connected
    · by_cases hroom : s.queue.length < queueCapacity
      · have hstep : step s .heartbeatTick =
            { s with queue := s.queue ++ [.heartbeat] } := by
          simp [step, sendCommand, hcn, hroom]
        rw [hstep]
        constructor
        · intro hs hw
          have hh := h1 hs hw
          show (s.queue ++ [OutMsg.heartbeat]).head? = some OutMsg.identify
          rw [sent_head_append _ _ (by intro hnil; rw [hnil] at hh; simp at hh)]
          exact hh
        · intro hs
          exact h2 hs
      · have hstep : step s .heartbeatTick = s := by
          simp [step, sendCommand, hcn, hroom]
        rw [hstep]; exact ⟨h1, h2⟩
    · have hstep : step s .heartbeatTick = s := by
        simp [step, sendCommand, hcn]
      rw [hstep]; exact ⟨h1, h2⟩
  | inboundCmd i =>
    by_cases hcn : s.connected
    · by_cases hroom : s.queue.length < queueCapacity
      · have hstep : step s (.inboundCmd i) =
            { s with queue := s.queue ++ [.response i] } := by
          simp [step, sendCommand, hcn, hroom]
        rw [hstep]
        constructor
        · intro hs hw
          have hh := h1 hs hw
          show (s.queue ++ [OutMsg.response i]).head? = some OutMsg.identify
          rw [sent_head_append _ _ (by intro hnil; rw [hnil] at hh; simp at hh)]
          exact hh
        · intro hs
          exact h2 hs
      · have hstep : step s (.inboundCmd i) = s := by
          simp [step, sendCommand, hcn, hroom]
        rw [hstep]; exact ⟨h1, h2⟩
    · have hstep : step s (.inboundCmd i) = s := by
        simp [step, sendCommand, hcn]
      rw [hstep]; exact ⟨h1, h2⟩
  | readFail =>
    by_cases hcn : s.connected
    · have hstep : step s .readFail = { s with connected := false } := by
        simp [step, hcn]
      rw [hstep]
      exact ⟨fun hs hw => h1 hs hw, fun hs => h2 hs⟩
    · have hstep : step s .readFail = s := by simp [step, hcn]
      rw [hstep]; exact ⟨h1, h2⟩

lemma identFirst_runT (s : TState) (acts : List TAct)
    (hacts : ∀ a ∈ acts, a ≠ TAct.connect) (hI : IdentFirst s) :
    IdentFirst (runT s acts) := by
  induction acts generalizing s with
  | nil => simpa [runT] using hI
  | cons a as ih =>
    rw [runT, List.foldl_cons]
    exact ih (step s a)
      (fun b hb => hacts b (List.mem_cons_of_mem _ hb))
      (identFirst_step s a (hacts a (List.mem_cons_self _ _)) hI)

/-- C2 (amended): after a transition into Connected made while the outbound
channel is empty — in particular on the first connection of a fresh client — the
identification envelope is the first envelope written to the wire for that
connection, preceding any handler-originated or heartbeat traffic, for as
long as that connection lasts.  (The channel persists across reconnects, so
the empty-queue premise is needed; see the counterexample.) -/
theorem identification_first_sent_of_empty_queue (s : TState) (acts : List TAct)
    (hc : s.connected = false) (hq : s.queue = [])
    (hacts : ∀ a ∈ acts, a ≠ TAct.connect)
    (hne : (runT (step s .connect) acts).sentSinceConnect ≠ []) :
    (runT (step s .connect) acts).sentSinceConnect.head? = some OutMsg.identify :=
  (identFirst_runT (step s .connect) acts hacts (identFirst_connect s hc hq)).2 hne

/-- Witness for the amended C2 theorem on a fresh client. -/
theorem identification_first_sent_of_empty_queue_witness :
    (runT (step freshClient .connect) [TAct.writerOk]).sentSinceConnect.head? =
      some OutMsg.identify :=
  identification_first_sent_of_empty_queue freshClient [TAct.writerOk] rfl rfl
    (by decide) (by decide)

/-- C2 is false as stated: the outbound channel is created once per client
and survives reconnects, so after the writer dies on a failed write and a
heartbeat is enqueued while the connected flag still holds, the first
envelope written after the reconnect is the residual heartbeat, not
identification. -/
theorem identification_not_first_after_reconnect_counterexample :
    (runT freshClient staleQueueTrace).sentSinceConnect = [OutMsg.heartbeat] ∧
    OutMsg.heartbeat ≠ OutMsg.identify := by
  decide

end EdgeAgent
